import Mathlib

set_option maxRecDepth 10000

attribute [local semireducible] Rat.add Rat.mul Rat.sub Rat.inv

/-!
# Adaptive quality manager — shallow embedding

Shallow embedding of `src/fps_booster/adaptive_quality_manager.py`.
Python floats are modelled as exact rationals (`ℚ`); Python exceptions
are modelled with `Except PyErr`.  Functions keep the source's names
(`_matvec`, `_solve_linear_system`, `RidgeRegressor.fit`, ...), and the
translation follows the Python line by line: list indexing that can go
out of range is guarded and raises `indexError`, `tuple.index` misses
raise `valueError`, and the Gauss–Jordan pivot/skip tolerances (`1e-12`)
are kept as the exact rational `1 / 10 ^ 12`.
-/

/-- Python exception kinds that the embedded code can raise. -/
inductive PyErr where
  | valueError
  | indexError
  | runtimeError
deriving DecidableEq, Repr

/-- View of `Except` as a sum, used to decide equality of results. -/
def exceptToSum {ε α : Type} : Except ε α → ε ⊕ α
  | .error e => .inl e
  | .ok a => .inr a

instance {ε α : Type} [DecidableEq ε] [DecidableEq α] : DecidableEq (Except ε α) :=
  fun a b =>
    decidable_of_iff (exceptToSum a = exceptToSum b)
      (by cases a <;> cases b <;> simp [exceptToSum])

/-- `TelemetrySample`: one observation from game and hardware sensors. -/
structure TelemetrySample where
  fps : ℚ
  gpu_temp : ℚ
  cpu_usage : ℚ
  frame_time_ms : ℚ
deriving DecidableEq, Repr

/-- `TelemetrySample.performance_margin`: the Python property computes
`1000.0 / 60.0 - frame_time_ms` with a hard-coded 60 FPS target. -/
def TelemetrySample.performance_margin (s : TelemetrySample) : ℚ :=
  1000 / 60 - s.frame_time_ms

/-- `GraphicsConfig`: safe-to-edit graphics settings. -/
structure GraphicsConfig where
  resolution_scale : ℚ
  ambient_occlusion : String
  shadow_distance : String
deriving DecidableEq, Repr

/-- The allowed ambient-occlusion ladder, as in the source tuples. -/
def ao_levels : List String := ["off", "low", "medium", "high"]

/-- The allowed shadow-distance ladder, as in the source tuples. -/
def shadow_levels : List String := ["short", "medium", "long"]

/-- `GraphicsConfig.clamp`: constrain to safe bounds; unknown enum
values are replaced by `"medium"`. -/
def GraphicsConfig.clamp (c : GraphicsConfig) : GraphicsConfig :=
  let clamped_scale := min (max c.resolution_scale (1/2)) 1
  let ao := if c.ambient_occlusion ∈ ao_levels then c.ambient_occlusion else "medium"
  let shadow := if c.shadow_distance ∈ shadow_levels then c.shadow_distance else "medium"
  ⟨clamped_scale, ao, shadow⟩

/-- `RollingWindow`: fixed-size queue of (sample, config) pairs.
`deque(maxlen=capacity)` drops from the left once over capacity. -/
structure RollingWindow where
  capacity : ℕ
  buffer : List (TelemetrySample × GraphicsConfig)
deriving DecidableEq, Repr

/-- `RollingWindow.__init__`: construction fails on capacity ≤ 0. -/
def RollingWindow.make (capacity : ℤ) : Except PyErr RollingWindow :=
  if capacity ≤ 0 then .error .valueError else .ok ⟨capacity.toNat, []⟩

/-- `RollingWindow.append`: store the pair with the config clamped;
evict from the front when past capacity (deque `maxlen` semantics). -/
def RollingWindow.append (w : RollingWindow) (s : TelemetrySample)
    (c : GraphicsConfig) : RollingWindow :=
  let b := w.buffer ++ [(s, c.clamp)]
  ⟨w.capacity, b.drop (b.length - w.capacity)⟩

/-- `_matmul_transpose`: `result[j][k] = Σ_i M[i][j] * M[i][k]` for
`j, k < len(M[0])` (called only on uniform-length rows). -/
def _matmul_transpose (matrix : List (List ℚ)) : List (List ℚ) :=
  let cols := (matrix.headD []).length
  (List.range cols).map (fun j =>
    (List.range cols).map (fun k =>
      (matrix.map (fun row => row.getD j 0 * row.getD k 0)).sum))

/-- The `fit` loop `for i in range(1, len(XtX)): XtX[i][i] += alpha`:
add `alpha` to every diagonal entry except the intercept's. -/
def addRidge (alpha : ℚ) (m : List (List ℚ)) : List (List ℚ) :=
  m.mapIdx (fun i row =>
    if i = 0 then row
    else row.mapIdx (fun k x => if k = i then x + alpha else x))

/-- `_matvec`: for each row, `sum(row[j] * vector[j] for j in
range(len(row)))`.  Python raises `IndexError` at the first `j` with
`j ≥ len(vector)`, i.e. exactly when `len(vector) < len(row)`; in the
in-range case the sum equals the zipped dot product. -/
def _matvec : List (List ℚ) → List ℚ → Except PyErr (List ℚ)
  | [], _ => .ok []
  | row :: rest, v =>
    if v.length < row.length then .error .indexError
    else do
      let tail ← _matvec rest v
      .ok ((List.zipWith (fun a b => a * b) row v).sum :: tail)

/-- `max(range(i, size), key=lambda r: abs(augmented[r][i]))`: the first
index in `[i, size)` attaining the maximal absolute value in column `i`
(Python's `max` keeps the first maximum, so only a strictly larger key
replaces the current best). -/
def pivotRow (aug : List (List ℚ)) (i size : ℕ) : ℕ :=
  (List.range' i (size - i)).foldl
    (fun best r =>
      if |(aug.getD r []).getD i 0| > |(aug.getD best []).getD i 0| then r else best)
    i

/-- `augmented[i], augmented[pivot_row] = augmented[pivot_row], augmented[i]`. -/
def swapRows (aug : List (List ℚ)) (i p : ℕ) : List (List ℚ) :=
  if p = i then aug
  else (aug.set i (aug.getD p [])).set p (aug.getD i [])

/-- One iteration of the Gauss–Jordan loop body of
`_solve_linear_system`: partial pivoting, the `1e-12` singularity check,
row normalisation over columns `i..size`, and elimination of every other
row, skipping factors below `1e-12` as the source does. -/
def gjStep (size i : ℕ) (aug : List (List ℚ)) : Except PyErr (List (List ℚ)) :=
  let p := pivotRow aug i size
  if |(aug.getD p []).getD i 0| < 1 / 10 ^ 12 then .error .valueError
  else
    let aug1 := swapRows aug i p
    let pivot := (aug1.getD i []).getD i 0
    let newRow := (aug1.getD i []).mapIdx (fun j x => if i ≤ j then x / pivot else x)
    let aug2 := aug1.set i newRow
    .ok (aug2.mapIdx (fun r row =>
      if r = i then row
      else
        let factor := row.getD i 0
        if |factor| < 1 / 10 ^ 12 then row
        else row.mapIdx (fun c x => if i ≤ c then x - factor * (newRow.getD c 0) else x)))

/-- `for i in range(size): ...` driving `gjStep`, fuelled structurally. -/
def gjLoop (size : ℕ) : ℕ → ℕ → List (List ℚ) → Except PyErr (List (List ℚ))
  | 0, _, aug => .ok aug
  | fuel + 1, i, aug => do
    let next ← gjStep size i aug
    gjLoop size fuel (i + 1) next

/-- `_solve_linear_system`: build `[row | rhs]` (Python indexes
`vector[row]` for `row < size`, an `IndexError` when the vector is
shorter), then run Gauss–Jordan and read off the last column. -/
def _solve_linear_system (matrix : List (List ℚ)) (vector : List ℚ) :
    Except PyErr (List ℚ) :=
  let size := matrix.length
  if vector.length < size then .error .indexError
  else do
    let aug := (List.range size).map (fun r => matrix.getD r [] ++ [vector.getD r 0])
    let final ← gjLoop size size 0 aug
    .ok ((List.range size).map (fun r => (final.getD r []).getD size 0))

/-- `RidgeRegressor`: `alpha` plus the optional fitted coefficients. -/
structure RidgeRegressor where
  alpha : ℚ
  coef : Option (List ℚ)
deriving DecidableEq, Repr

/-- `RidgeRegressor.fit`: guards, intercept augmentation, `XtX` with the
ridge term off the intercept, then — exactly as the source does —
`Xty = _matvec(augmented, targets)` (note: the matrix itself, not its
transpose) fed to `_solve_linear_system`. -/
def RidgeRegressor.fit (r : RidgeRegressor) (features : List (List ℚ))
    (targets : List ℚ) : Except PyErr RidgeRegressor :=
  if features.isEmpty then .error .valueError
  else if features.any (fun row => row.length ≠ (features.headD []).length) then
    .error .valueError
  else
    let augmented := features.map (fun row => 1 :: row)
    let XtX := addRidge r.alpha (_matmul_transpose augmented)
    do
      let Xty ← _matvec augmented targets
      let coef ← _solve_linear_system XtX Xty
      .ok ⟨r.alpha, some coef⟩

/-- `RidgeRegressor.predict`: unfit model raises, length mismatch
raises, otherwise the dot product with a prepended 1. -/
def RidgeRegressor.predict (r : RidgeRegressor) (features : List ℚ) :
    Except PyErr ℚ :=
  match r.coef with
  | none => .error .runtimeError
  | some coef =>
    let vector := 1 :: features
    if vector.length ≠ coef.length then .error .valueError
    else .ok ((List.zipWith (fun a b => a * b) vector coef).sum)

/-- Python `round(x, 2)`: round to the nearest hundredth (ties are
immaterial for every value the manager produces). -/
def round2 (q : ℚ) : ℚ := (round (q * 100) : ℤ) / 100

/-- `tuple.index`: position of the first occurrence of `x`,
`ValueError` when absent. -/
def levelIndex (levels : List String) (x : String) : Except PyErr ℕ :=
  match levels with
  | [] => .error .valueError
  | y :: rest => if y = x then .ok 0 else (levelIndex rest x).map (· + 1)

/-- `AdaptiveQualityManager._scale_down`: both ladder indices are looked
up before any branch (so invalid enums raise even when only the
resolution branch would run), then one rung down in ladder order. -/
def scale_down (config : GraphicsConfig) : Except PyErr GraphicsConfig := do
  let current_ao_index ← levelIndex ao_levels config.ambient_occlusion
  let current_shadow_index ← levelIndex shadow_levels config.shadow_distance
  if config.resolution_scale > 4/5 then
    .ok (GraphicsConfig.clamp
      { config with resolution_scale := round2 (config.resolution_scale - 1/20) })
  else if 0 < current_ao_index then
    .ok (GraphicsConfig.clamp
      { config with ambient_occlusion := ao_levels.getD (current_ao_index - 1) "" })
  else if 0 < current_shadow_index then
    .ok (GraphicsConfig.clamp
      { config with shadow_distance := shadow_levels.getD (current_shadow_index - 1) "" })
  else .ok config.clamp

/-- `AdaptiveQualityManager._scale_up`: mirror image of `scale_down`. -/
def scale_up (config : GraphicsConfig) : Except PyErr GraphicsConfig := do
  let current_ao_index ← levelIndex ao_levels config.ambient_occlusion
  let current_shadow_index ← levelIndex shadow_levels config.shadow_distance
  if config.resolution_scale < 1 then
    .ok (GraphicsConfig.clamp
      { config with resolution_scale := round2 (config.resolution_scale + 1/20) })
  else if current_ao_index < ao_levels.length - 1 then
    .ok (GraphicsConfig.clamp
      { config with ambient_occlusion := ao_levels.getD (current_ao_index + 1) "" })
  else if current_shadow_index < shadow_levels.length - 1 then
    .ok (GraphicsConfig.clamp
      { config with shadow_distance := shadow_levels.getD (current_shadow_index + 1) "" })
  else .ok config.clamp

/-- `AdaptiveQualityManager` state. -/
structure AdaptiveQualityManager where
  window : RollingWindow
  regressor : RidgeRegressor
  target_frame_time_ms : ℚ
  margin_tolerance_ms : ℚ
deriving DecidableEq, Repr

/-- The defaults of `AdaptiveQualityManager.__init__`:
capacity-120 window, `RidgeRegressor(alpha=1e-2)`, 16 ms target,
1 ms tolerance. -/
def defaultManager : AdaptiveQualityManager :=
  ⟨⟨120, []⟩, ⟨1/100, none⟩, 16, 1⟩

/-- The feature row `_train_model` and `_recommend` build from a sample. -/
def featuresOf (s : TelemetrySample) : List ℚ :=
  [s.fps, s.gpu_temp, s.cpu_usage, s.frame_time_ms]

/-- `AdaptiveQualityManager._train_model`: refit on the whole window,
targets being the realized margins. -/
def AdaptiveQualityManager.train_model (m : AdaptiveQualityManager) :
    Except PyErr RidgeRegressor :=
  let samples := m.window.buffer.map (fun p => featuresOf p.1)
  let targets := m.window.buffer.map
    (fun p => m.target_frame_time_ms - p.1.frame_time_ms)
  m.regressor.fit samples targets

/-- `AdaptiveQualityManager._recommend`: predict, then the deadband
decision rule (scale down / scale up / hold). -/
def AdaptiveQualityManager.recommend (m : AdaptiveQualityManager)
    (sample : TelemetrySample) (config : GraphicsConfig) :
    Except PyErr GraphicsConfig := do
  let prediction ← m.regressor.predict (featuresOf sample)
  let observed_margin := m.target_frame_time_ms - sample.frame_time_ms
  if observed_margin < -m.margin_tolerance_ms ∨
      (|observed_margin| ≤ m.margin_tolerance_ms ∧ prediction < -m.margin_tolerance_ms) then
    scale_down config
  else if observed_margin > m.margin_tolerance_ms ∨
      (|observed_margin| ≤ m.margin_tolerance_ms ∧ prediction > m.margin_tolerance_ms) then
    scale_up config
  else .ok config.clamp

/-- `AdaptiveQualityManager.update`: append, warm-up guard at 5 samples,
retrain, recommend.  Python mutates `self`; here the new manager state
is returned alongside the recommended config. -/
def AdaptiveQualityManager.update (m : AdaptiveQualityManager)
    (sample : TelemetrySample) (config : GraphicsConfig) :
    Except PyErr (AdaptiveQualityManager × GraphicsConfig) :=
  let w := m.window.append sample config
  let m1 : AdaptiveQualityManager := { m with window := w }
  if w.buffer.length < 5 then .ok (m1, config.clamp)
  else do
    let reg ← m1.train_model
    let m2 : AdaptiveQualityManager := { m1 with regressor := reg }
    let rec2 ← m2.recommend sample config
    .ok (m2, rec2)

/-- The fit-then-predict value `update` acts on for the newest sample:
retrain on the post-append window, then predict that sample's margin. -/
def AdaptiveQualityManager.trainedPredict (m : AdaptiveQualityManager)
    (sample : TelemetrySample) (config : GraphicsConfig) : Except PyErr ℚ := do
  let m1 : AdaptiveQualityManager := { m with window := m.window.append sample config }
  let reg ← m1.train_model
  reg.predict (featuresOf sample)

/-- A sequence of `update` calls, threading the manager state and
collecting every returned config. -/
def runUpdates : AdaptiveQualityManager →
    List (TelemetrySample × GraphicsConfig) →
    Except PyErr (AdaptiveQualityManager × List GraphicsConfig)
  | m, [] => .ok (m, [])
  | m, p :: rest => do
    let r1 ← m.update p.1 p.2
    let r2 ← runUpdates r1.1 rest
    .ok (r2.1, r1.2 :: r2.2)

/-- Folding `RollingWindow.append` over a list of pairs, oldest first. -/
def appendAll (w : RollingWindow)
    (ps : List (TelemetrySample × GraphicsConfig)) : RollingWindow :=
  ps.foldl (fun acc p => acc.append p.1 p.2) w

/-! Concrete inputs used by the closed evaluations below. -/

/-- A concrete telemetry sample. -/
def mkSample (fps gpu cpu ft : ℚ) : TelemetrySample := ⟨fps, gpu, cpu, ft⟩

/-- A config below every ladder floor: resolution under the 0.5 bound,
ambient occlusion `off`, shadow `short`. -/
def floorConfig : GraphicsConfig := ⟨2/5, "off", "short"⟩

/-- A high-quality config used as decision input. -/
def highConfig : GraphicsConfig := ⟨9/10, "high", "long"⟩

/-- A config with an ambient-occlusion value outside the allowed set. -/
def badConfig : GraphicsConfig := ⟨9/10, "ultra", "long"⟩

/-- A fresh manager: capacity-10 window, `alpha = 1/100`, 16 ms target,
1 ms tolerance (the test-suite configuration). -/
def freshManager : AdaptiveQualityManager := ⟨⟨10, []⟩, ⟨1/100, none⟩, 16, 1⟩

/-- Six ticks of slow frames (18–21 ms against the 16 ms target), all
asking about the below-floor config. -/
def pressureRun : List (TelemetrySample × GraphicsConfig) :=
  [(mkSample 55 60 30 18, floorConfig), (mkSample 52 61 35 19, floorConfig),
   (mkSample 57 62 40 20, floorConfig), (mkSample 54 63 45 21, floorConfig),
   (mkSample 56 64 50 19, floorConfig), (mkSample 53 65 55 21, floorConfig)]

/-- The manager state holding the first four pressure samples, so that
the next `update` crosses the five-sample warm-up threshold. -/
def warmManager : AdaptiveQualityManager :=
  ⟨⟨10, [(mkSample 55 60 30 18, floorConfig.clamp), (mkSample 52 61 35 19, floorConfig.clamp),
         (mkSample 57 62 40 20, floorConfig.clamp), (mkSample 54 63 45 21, floorConfig.clamp)]⟩,
   ⟨1/100, none⟩, 16, 1⟩

/-- The fifth pressure sample. -/
def newestSample : TelemetrySample := mkSample 56 64 50 19

/-- The exact prediction the retrained regressor returns for
`newestSample` on `warmManager`'s five-sample window. -/
def predictedValue : ℚ := -109391699822411 / 60126380005

/-- Twelve pairs for the capacity-10 FIFO scenario. -/
def twelvePairs : List (TelemetrySample × GraphicsConfig) :=
  [(mkSample 1 1 1 1, floorConfig), (mkSample 2 1 1 2, floorConfig),
   (mkSample 3 1 1 3, highConfig), (mkSample 4 1 1 4, floorConfig),
   (mkSample 5 1 1 5, badConfig), (mkSample 6 1 1 6, floorConfig),
   (mkSample 7 1 1 7, highConfig), (mkSample 8 1 1 8, floorConfig),
   (mkSample 9 1 1 9, floorConfig), (mkSample 10 1 1 10, highConfig),
   (mkSample 11 1 1 11, floorConfig), (mkSample 12 1 1 12, floorConfig)]

/-! Helper lemmas shared by the claim theorems. -/

/-- Below the warm-up threshold `update` only appends and clamps. -/
lemma update_warmup_eq (m : AdaptiveQualityManager) (s : TelemetrySample)
    (cfg : GraphicsConfig)
    (h : (m.window.append s cfg).buffer.length < 5) :
    m.update s cfg =
      .ok ({ m with window := m.window.append s cfg }, cfg.clamp) := by
  simp only [AdaptiveQualityManager.update]
  rw [if_pos h]

/-- Occupancy after one `append`. -/
lemma RollingWindow.length_append (w : RollingWindow) (s : TelemetrySample)
    (c : GraphicsConfig) :
    (w.append s c).buffer.length = min (w.buffer.length + 1) w.capacity := by
  simp [RollingWindow.append]
  omega

/-- `append` never changes the capacity. -/
lemma RollingWindow.capacity_append (w : RollingWindow) (s : TelemetrySample)
    (c : GraphicsConfig) : (w.append s c).capacity = w.capacity := rfl

/-! Claim theorems. -/

/-- C3: whenever fewer than 5 samples are stored after the append,
`update` returns exactly `config.clamp()` and leaves the regressor
untouched (the returned manager keeps `m.regressor`; `fit` is never
reached on that call). -/
theorem update_below_warmup_returns_clamp (m : AdaptiveQualityManager)
    (s : TelemetrySample) (cfg : GraphicsConfig)
    (h : (m.window.append s cfg).buffer.length < 5) :
    m.update s cfg =
      .ok ({ m with window := m.window.append s cfg }, cfg.clamp) :=
  update_warmup_eq m s cfg h

/-- Witness for C3: one update on the fresh (empty-window) manager. -/
theorem update_below_warmup_returns_clamp_witness :
    freshManager.update newestSample highConfig =
      .ok ({ freshManager with
              window := freshManager.window.append newestSample highConfig },
           highConfig.clamp) :=
  update_below_warmup_returns_clamp freshManager newestSample highConfig (by decide)

/-- C9: with a window capacity below 5 the warm-up guard never passes:
over any sequence of updates the regressor is never refitted (it stays
exactly the initial one) and every call returns `config.clamp()`. -/
theorem small_capacity_never_fits (m : AdaptiveQualityManager)
    (l : List (TelemetrySample × GraphicsConfig))
    (hcap : m.window.capacity < 5)
    (hlen : m.window.buffer.length ≤ m.window.capacity) :
    (runUpdates m l).map (fun r => (r.1.regressor, r.2)) =
      .ok (m.regressor, l.map (fun p => p.2.clamp)) := by
  induction l generalizing m with
  | nil => simp [runUpdates, Except.map]
  | cons p rest ih =>
    have hlt : (m.window.append p.1 p.2).buffer.length < 5 := by
      rw [RollingWindow.length_append]; omega
    have hlen2 : (m.window.append p.1 p.2).buffer.length ≤
        (m.window.append p.1 p.2).capacity := by
      rw [RollingWindow.length_append, RollingWindow.capacity_append]; omega
    have hcap2 : (m.window.append p.1 p.2).capacity < 5 := by
      rw [RollingWindow.capacity_append]; omega
    have ihm := ih { m with window := m.window.append p.1 p.2 } hcap2 hlen2
    simp only [runUpdates, update_warmup_eq m p.1 p.2 hlt]
    cases hrest : runUpdates { m with window := m.window.append p.1 p.2 } rest with
    | error e => rw [hrest] at ihm; simp [Except.map] at ihm
    | ok r2 =>
      rw [hrest] at ihm
      simp only [Except.map, Except.ok.injEq, Prod.mk.injEq] at ihm
      simp [Except.bind, Except.map, Bind.bind, hrest, ihm.1, ihm.2]

/-- Witness for C9: a capacity-2 manager run over three ticks returns
three clamped configs and the untouched initial regressor. -/
theorem small_capacity_never_fits_witness :
    (runUpdates ⟨⟨2, []⟩, ⟨1/100, none⟩, 16, 1⟩
        [(mkSample 50 60 30 18, floorConfig), (mkSample 51 61 31 19, highConfig),
         (mkSample 52 62 32 20, floorConfig)]).map (fun r => (r.1.regressor, r.2)) =
      .ok ((⟨1/100, none⟩ : RidgeRegressor),
           [floorConfig.clamp, highConfig.clamp, floorConfig.clamp]) :=
  small_capacity_never_fits ⟨⟨2, []⟩, ⟨1/100, none⟩, 16, 1⟩
    [(mkSample 50 60 30 18, floorConfig), (mkSample 51 61 31 19, highConfig),
     (mkSample 52 62 32 20, floorConfig)] (by decide) (by decide)

/-- C7 counterexample: at `frame_time_ms = 16` the Python property
returns `1000/60 - 16 = 2/3`, while the claim (margin relative to the
default manager target 16 ms) demands `0`. -/
theorem performance_margin_counterexample :
    TelemetrySample.performance_margin ⟨60, 65, 50, 16⟩ = 2/3 ∧
    ¬ ((2/3 : ℚ) = defaultManager.target_frame_time_ms - 16) := by
  exact ⟨by decide, by decide⟩

/-- C7 (amended): `performance_margin` equals `1000/60 - frame_time_ms`
— a hard-coded 60 FPS budget, independent of any manager's configured
`target_frame_time_ms` — and is positive exactly when the frame beat
that fixed budget. -/
theorem performance_margin_hardcoded (s : TelemetrySample) :
    s.performance_margin = 1000 / 60 - s.frame_time_ms ∧
    (0 < s.performance_margin ↔ s.frame_time_ms < 1000 / 60) := by
  refine ⟨rfl, ?_⟩
  unfold TelemetrySample.performance_margin
  constructor <;> intro h <;> linarith

/-- C1: fitting the perfectly linear dataset `y = 2*x + 3`
(`x = 0, 1, 2`) with `alpha = 1/1000` stores `[-2999/2001, 5000/2001]`
(≈ `[-1.499, 2.499]`), nowhere near the normal-equation solution
`≈ [3, 2]`: the right-hand side is built from the rows of `X`, not from
`X^T`, so the stored vector does not solve `(X^T X + αI')w = X^T y`. -/
theorem fit_linear_dataset_wrong_coefficients :
    RidgeRegressor.fit ⟨1/1000, none⟩ [[0], [1], [2]] [3, 5, 7] =
      .ok ⟨1/1000, some [-2999/2001, 5000/2001]⟩ ∧
    ¬ |(-2999/2001 : ℚ) - 3| ≤ 1 := by
  exact ⟨by decide, by decide⟩

/-- C10: with non-empty uniform rows, a parallel targets list, and fewer
rows than `feature_count + 1`, `fit` raises `IndexError` (not the shape
`ValueError`): `_matvec` consumes `targets` by column index, so the
first augmented row (of length `feature_count + 1`) runs past the end of
the row-indexed targets list. -/
theorem fit_short_rows_indexError (r : RidgeRegressor)
    (features : List (List ℚ)) (targets : List ℚ)
    (hne : features ≠ [])
    (huni : ∀ row ∈ features, row.length = (features.headD []).length)
    (hpar : targets.length = features.length)
    (hrows : features.length < (features.headD []).length + 1) :
    r.fit features targets = .error .indexError := by
  match features, hne with
  | f0 :: rest, _ =>
    simp only [RidgeRegressor.fit]
    rw [if_neg (by simp [List.isEmpty])]
    rw [if_neg ?hguard]
    case hguard =>
      simp only [List.any_eq_true, not_exists]
      intro row hrow
      obtain ⟨hmem, hbad⟩ := hrow
      simp [huni row hmem] at hbad
    simp only [List.map_cons]
    rw [_matvec]
    rw [if_pos ?hlen]
    case hlen =>
      simp only [List.length_cons, List.headD_cons] at hpar hrows ⊢
      omega
    rfl

/-- Witness for C10: `fit([[1.0]], [1.0])` — one row, one feature —
raises `IndexError`. -/
theorem fit_short_rows_indexError_witness :
    RidgeRegressor.fit ⟨1, none⟩ [[1]] [1] = .error .indexError :=
  fit_short_rows_indexError ⟨1, none⟩ [[1]] [1] (by decide) (by decide)
    (by decide) (by decide)

/-- C5: `clamp` is idempotent, always lands in the safe ranges
(`resolution_scale ∈ [1/2, 1]`, enums in their allowed ladders), and
replaces out-of-set enum values by `"medium"`. -/
theorem clamp_idempotent_bounded (c : GraphicsConfig) :
    c.clamp.clamp = c.clamp ∧
    1/2 ≤ c.clamp.resolution_scale ∧
    c.clamp.resolution_scale ≤ 1 ∧
    c.clamp.ambient_occlusion ∈ ao_levels ∧
    c.clamp.shadow_distance ∈ shadow_levels ∧
    (c.ambient_occlusion ∉ ao_levels → c.clamp.ambient_occlusion = "medium") ∧
    (c.shadow_distance ∉ shadow_levels → c.clamp.shadow_distance = "medium") := by
  have hsc1 : (1:ℚ)/2 ≤ min (max c.resolution_scale (1/2)) 1 :=
    le_min (le_max_right _ _) (by norm_num)
  have hsc2 : min (max c.resolution_scale (1/2)) 1 ≤ 1 := min_le_right _ _
  have hmed_ao : ("medium" : String) ∈ ao_levels := by decide
  have hmed_sh : ("medium" : String) ∈ shadow_levels := by decide
  have hscale : ((c.resolution_scale ⊔ (2⁻¹:ℚ)) ⊓ 1 ⊔ 2⁻¹) ⊓ 1 =
      (c.resolution_scale ⊔ 2⁻¹) ⊓ 1 := by
    have h1 : (2⁻¹:ℚ) ≤ (c.resolution_scale ⊔ 2⁻¹) ⊓ 1 :=
      le_inf le_sup_right (by norm_num)
    have h2 : (c.resolution_scale ⊔ (2⁻¹:ℚ)) ⊓ 1 ≤ 1 := inf_le_right
    rw [sup_eq_left.mpr h1, inf_eq_left.mpr h2]
  refine ⟨?_, ?_, ?_, ?_, ?_, ?_, ?_⟩
  · by_cases hao : c.ambient_occlusion ∈ ao_levels <;>
    by_cases hsh : c.shadow_distance ∈ shadow_levels <;>
    simp [GraphicsConfig.clamp, hao, hsh, hmed_ao, hmed_sh, hscale]
  · simp [GraphicsConfig.clamp]
    norm_num
  · simp [GraphicsConfig.clamp]
  · by_cases hao : c.ambient_occlusion ∈ ao_levels <;>
    simp [GraphicsConfig.clamp, hao, hmed_ao]
  · by_cases hsh : c.shadow_distance ∈ shadow_levels <;>
    simp [GraphicsConfig.clamp, hsh, hmed_sh]
  · intro hao; simp [GraphicsConfig.clamp, hao]
  · intro hsh; simp [GraphicsConfig.clamp, hsh]

/-- Witness for C5, at the invalid config `(1.2, "ultra", "distant")`. -/
theorem clamp_idempotent_bounded_witness :
    (GraphicsConfig.clamp (GraphicsConfig.clamp ⟨6/5, "ultra", "distant"⟩) =
      GraphicsConfig.clamp ⟨6/5, "ultra", "distant"⟩) ∧
    1/2 ≤ (GraphicsConfig.clamp ⟨6/5, "ultra", "distant"⟩).resolution_scale ∧
    (GraphicsConfig.clamp ⟨6/5, "ultra", "distant"⟩).resolution_scale ≤ 1 ∧
    (GraphicsConfig.clamp ⟨6/5, "ultra", "distant"⟩).ambient_occlusion ∈ ao_levels ∧
    (GraphicsConfig.clamp ⟨6/5, "ultra", "distant"⟩).shadow_distance ∈ shadow_levels ∧
    ((⟨6/5, "ultra", "distant"⟩ : GraphicsConfig).ambient_occlusion ∉ ao_levels →
      (GraphicsConfig.clamp ⟨6/5, "ultra", "distant"⟩).ambient_occlusion = "medium") ∧
    ((⟨6/5, "ultra", "distant"⟩ : GraphicsConfig).shadow_distance ∉ shadow_levels →
      (GraphicsConfig.clamp ⟨6/5, "ultra", "distant"⟩).shadow_distance = "medium") :=
  clamp_idempotent_bounded ⟨6/5, "ultra", "distant"⟩

/-- One step of `appendAll`. -/
lemma appendAll_cons (w : RollingWindow) (p : TelemetrySample × GraphicsConfig)
    (ps : List (TelemetrySample × GraphicsConfig)) :
    appendAll w (p :: ps) = appendAll (w.append p.1 p.2) ps := rfl

/-- Closed form of the buffer after folding `append` over a list: the
clamped pairs, keeping only the most recent `cap` ones. -/
lemma appendAll_buffer (cap : ℕ) (ps : List (TelemetrySample × GraphicsConfig)) :
    ∀ b : List (TelemetrySample × GraphicsConfig), b.length ≤ cap →
    (appendAll ⟨cap, b⟩ ps).buffer =
      (b ++ ps.map (fun p => (p.1, p.2.clamp))).drop (b.length + ps.length - cap) := by
  induction ps with
  | nil =>
    intro b hb
    have h0 : b.length - cap = 0 := by omega
    simp [appendAll, h0]
  | cons p ps ih =>
    intro b hb
    have hstep : (⟨cap, b⟩ : RollingWindow).append p.1 p.2 =
        ⟨cap, (b ++ [(p.1, p.2.clamp)]).drop (b.length + 1 - cap)⟩ := by
      simp [RollingWindow.append]
    have hb2 : ((b ++ [(p.1, p.2.clamp)]).drop (b.length + 1 - cap)).length ≤ cap := by
      simp; omega
    rw [appendAll_cons, hstep, ih _ hb2]
    have hk : b.length + 1 - cap ≤ (b ++ [(p.1, p.2.clamp)]).length := by
      simp
    rw [← List.drop_append_of_le_length hk, List.drop_drop, List.append_assoc,
      List.singleton_append]
    simp only [List.map_cons, List.length_cons]
    congr 1
    simp only [List.length_drop, List.length_append, List.length_cons, List.length_nil]
    omega

/-- C6: starting from an empty window of positive capacity `cap`, after
appending `ps` in order the occupancy is `min ps.length cap` and the
buffer holds exactly the last `min ps.length cap` (sample, clamped
config) pairs in insertion order. -/
theorem rolling_window_fifo (cap : ℕ) (hcap : 0 < cap)
    (ps : List (TelemetrySample × GraphicsConfig)) :
    (appendAll ⟨cap, []⟩ ps).buffer.length = min ps.length cap ∧
    (appendAll ⟨cap, []⟩ ps).buffer =
      (ps.map (fun p => (p.1, p.2.clamp))).drop (ps.length - cap) := by
  have h := appendAll_buffer cap ps [] (by simp)
  simp only [List.nil_append, List.length_nil, Nat.zero_add] at h
  refine ⟨?_, h⟩
  rw [h]
  simp only [List.length_drop, List.length_map]
  omega

/-- Witness for C6: capacity 10, twelve appends. -/
theorem rolling_window_fifo_witness :
    (appendAll ⟨10, []⟩ twelvePairs).buffer.length = min twelvePairs.length 10 ∧
    (appendAll ⟨10, []⟩ twelvePairs).buffer =
      (twelvePairs.map (fun p => (p.1, p.2.clamp))).drop (twelvePairs.length - 10) :=
  rolling_window_fifo 10 (by decide) twelvePairs

/-- A successful `trainedPredict` splits into a successful refit and a
successful prediction with the same value. -/
lemma trainedPredict_ok (m : AdaptiveQualityManager) (s : TelemetrySample)
    (cfg : GraphicsConfig) (p : ℚ)
    (hp : m.trainedPredict s cfg = .ok p) :
    ∃ reg, ({ m with window := m.window.append s cfg } :
        AdaptiveQualityManager).train_model = .ok reg ∧
      reg.predict (featuresOf s) = .ok p := by
  simp only [AdaptiveQualityManager.trainedPredict] at hp
  cases htr : ({ m with window := m.window.append s cfg } :
      AdaptiveQualityManager).train_model with
  | error e => rw [htr] at hp; simp [Except.bind, Bind.bind] at hp
  | ok reg =>
    rw [htr] at hp
    simp only [Except.bind, Bind.bind] at hp
    exact ⟨reg, rfl, hp⟩

/-- When the refit fails past warm-up, `update` propagates the error. -/
lemma update_fit_error (m : AdaptiveQualityManager) (s : TelemetrySample)
    (cfg : GraphicsConfig) (e : PyErr)
    (hlen : ¬ (m.window.append s cfg).buffer.length < 5)
    (htr : ({ m with window := m.window.append s cfg } :
        AdaptiveQualityManager).train_model = .error e) :
    m.update s cfg = .error e := by
  simp only [AdaptiveQualityManager.update]
  rw [if_neg hlen, htr]
  rfl

/-- After a successful refit past warm-up, `update` is `recommend` on
the retrained manager, paired with that manager state. -/
lemma update_after_fit (m : AdaptiveQualityManager) (s : TelemetrySample)
    (cfg : GraphicsConfig) (reg : RidgeRegressor)
    (hlen : ¬ (m.window.append s cfg).buffer.length < 5)
    (htr : ({ m with window := m.window.append s cfg } :
        AdaptiveQualityManager).train_model = .ok reg) :
    m.update s cfg =
      (AdaptiveQualityManager.recommend
          { m with window := m.window.append s cfg, regressor := reg } s cfg).map
        (fun r => ({ m with window := m.window.append s cfg, regressor := reg }, r)) := by
  simp only [AdaptiveQualityManager.update]
  rw [if_neg hlen, htr]
  cases hrec : AdaptiveQualityManager.recommend
      { m with window := m.window.append s cfg, regressor := reg } s cfg <;>
  simp [Except.bind, Bind.bind, Except.map, hrec]

/-- Projecting the recommended config out of `update`'s result. -/
lemma map_snd_pair (x : Except PyErr GraphicsConfig) (m2 : AdaptiveQualityManager) :
    (x.map (fun r => (m2, r))).map Prod.snd = x := by
  cases x <;> simp [Except.map]

/-- `recommend` with a known prediction value is the bare decision rule. -/
lemma recommend_eq (m2 : AdaptiveQualityManager) (s : TelemetrySample)
    (cfg : GraphicsConfig) (p : ℚ)
    (hpred : m2.regressor.predict (featuresOf s) = .ok p) :
    m2.recommend s cfg =
      (if m2.target_frame_time_ms - s.frame_time_ms < -m2.margin_tolerance_ms ∨
          (|m2.target_frame_time_ms - s.frame_time_ms| ≤ m2.margin_tolerance_ms ∧
            p < -m2.margin_tolerance_ms) then
        scale_down cfg
      else if m2.target_frame_time_ms - s.frame_time_ms > m2.margin_tolerance_ms ∨
          (|m2.target_frame_time_ms - s.frame_time_ms| ≤ m2.margin_tolerance_ms ∧
            p > m2.margin_tolerance_ms) then
        scale_up cfg
      else .ok cfg.clamp) := by
  simp only [AdaptiveQualityManager.recommend, hpred, Except.bind, Bind.bind]

/-- C2: past warm-up, with the retrained model predicting `p` and a
non-negative tolerance, `update` takes the scale-down step exactly on
the claim's scale-down condition, the scale-up step exactly on the
scale-up condition, and otherwise returns `config.clamp()`. -/
theorem update_decision_rule (m : AdaptiveQualityManager) (s : TelemetrySample)
    (cfg : GraphicsConfig) (p : ℚ)
    (hlen : 5 ≤ (m.window.append s cfg).buffer.length)
    (hp : m.trainedPredict s cfg = .ok p)
    (htol : 0 ≤ m.margin_tolerance_ms) :
    ((m.target_frame_time_ms - s.frame_time_ms < -m.margin_tolerance_ms ∨
        (|m.target_frame_time_ms - s.frame_time_ms| ≤ m.margin_tolerance_ms ∧
          p < -m.margin_tolerance_ms)) →
      (m.update s cfg).map Prod.snd = scale_down cfg) ∧
    ((m.target_frame_time_ms - s.frame_time_ms > m.margin_tolerance_ms ∨
        (|m.target_frame_time_ms - s.frame_time_ms| ≤ m.margin_tolerance_ms ∧
          p > m.margin_tolerance_ms)) →
      (m.update s cfg).map Prod.snd = scale_up cfg) ∧
    ((¬ (m.target_frame_time_ms - s.frame_time_ms < -m.margin_tolerance_ms ∨
        (|m.target_frame_time_ms - s.frame_time_ms| ≤ m.margin_tolerance_ms ∧
          p < -m.margin_tolerance_ms)) ∧
      ¬ (m.target_frame_time_ms - s.frame_time_ms > m.margin_tolerance_ms ∨
        (|m.target_frame_time_ms - s.frame_time_ms| ≤ m.margin_tolerance_ms ∧
          p > m.margin_tolerance_ms))) →
      (m.update s cfg).map Prod.snd = .ok cfg.clamp) := by
  obtain ⟨reg, htr, hpred⟩ := trainedPredict_ok m s cfg p hp
  have hlen2 : ¬ (m.window.append s cfg).buffer.length < 5 := by omega
  have hsnd : (m.update s cfg).map Prod.snd =
      AdaptiveQualityManager.recommend
        { m with window := m.window.append s cfg, regressor := reg } s cfg := by
    rw [update_after_fit m s cfg reg hlen2 htr, map_snd_pair]
  rw [hsnd, recommend_eq _ s cfg p hpred]
  refine ⟨?_, ?_, ?_⟩
  · intro hdown
    rw [if_pos hdown]
  · intro hup
    have hnd : ¬ (m.target_frame_time_ms - s.frame_time_ms < -m.margin_tolerance_ms ∨
        (|m.target_frame_time_ms - s.frame_time_ms| ≤ m.margin_tolerance_ms ∧
          p < -m.margin_tolerance_ms)) := by
      rcases hup with h | ⟨habs, hp2⟩
      · rintro (h2 | ⟨habs2, hp3⟩)
        · linarith
        · have := (abs_le.mp habs2).2; linarith
      · rintro (h2 | ⟨habs2, hp3⟩)
        · have := (abs_le.mp habs).1; linarith
        · linarith
    rw [if_neg hnd, if_pos hup]
  · rintro ⟨hnd, hnu⟩
    rw [if_neg hnd, if_neg hnu]

/-- `tuple.index` raises `ValueError` exactly on missing values. -/
lemma levelIndex_not_mem {x : String} {l : List String} (h : x ∉ l) :
    levelIndex l x = .error .valueError := by
  induction l with
  | nil => rfl
  | cons y rest ih =>
    have hyx : ¬ y = x := fun he => h (by simp [he])
    have hrest : x ∉ rest := fun hr => h (List.mem_cons_of_mem _ hr)
    simp only [levelIndex]
    rw [if_neg hyx, ih hrest]
    rfl

/-- `tuple.index` succeeds on present values. -/
lemma levelIndex_mem {x : String} {l : List String} (h : x ∈ l) :
    ∃ i, levelIndex l x = .ok i := by
  induction l with
  | nil => cases h
  | cons y rest ih =>
    by_cases hyx : y = x
    · exact ⟨0, by simp [levelIndex, hyx]⟩
    · have hr : x ∈ rest := by
        rcases List.mem_cons.mp h with h1 | h1
        · exact absurd h1.symm hyx
        · exact h1
      obtain ⟨i, hi⟩ := ih hr
      exact ⟨i + 1, by simp [levelIndex, hyx, hi, Except.map]⟩

/-- `_scale_down` hits the `tuple.index` `ValueError` on any config with
an out-of-set enum, before any ladder branch runs. -/
lemma scale_down_invalid (cfg : GraphicsConfig)
    (h : cfg.ambient_occlusion ∉ ao_levels ∨ cfg.shadow_distance ∉ shadow_levels) :
    scale_down cfg = .error .valueError := by
  by_cases hao : cfg.ambient_occlusion ∈ ao_levels
  · have hsh : cfg.shadow_distance ∉ shadow_levels := h.resolve_left (by simp [hao])
    obtain ⟨i, hi⟩ := levelIndex_mem hao
    simp [scale_down, hi, levelIndex_not_mem hsh, Except.bind, Bind.bind]
  · simp [scale_down, levelIndex_not_mem hao, Except.bind, Bind.bind]

/-- `_scale_up` hits the same `ValueError` on invalid enums. -/
lemma scale_up_invalid (cfg : GraphicsConfig)
    (h : cfg.ambient_occlusion ∉ ao_levels ∨ cfg.shadow_distance ∉ shadow_levels) :
    scale_up cfg = .error .valueError := by
  by_cases hao : cfg.ambient_occlusion ∈ ao_levels
  · have hsh : cfg.shadow_distance ∉ shadow_levels := h.resolve_left (by simp [hao])
    obtain ⟨i, hi⟩ := levelIndex_mem hao
    simp [scale_up, hi, levelIndex_not_mem hsh, Except.bind, Bind.bind]
  · simp [scale_up, levelIndex_not_mem hao, Except.bind, Bind.bind]

/-- C8: past warm-up, when the decision is scale-down or scale-up and
the input config carries an enum value outside its allowed set, `update`
raises `ValueError` (from the ladder `tuple.index` lookup on the
unclamped input) instead of coercing the value to `"medium"`. -/
theorem update_invalid_enum_valueError (m : AdaptiveQualityManager)
    (s : TelemetrySample) (cfg : GraphicsConfig) (p : ℚ)
    (hbad : cfg.ambient_occlusion ∉ ao_levels ∨ cfg.shadow_distance ∉ shadow_levels)
    (hlen : 5 ≤ (m.window.append s cfg).buffer.length)
    (hp : m.trainedPredict s cfg = .ok p)
    (hdec : (m.target_frame_time_ms - s.frame_time_ms < -m.margin_tolerance_ms ∨
        (|m.target_frame_time_ms - s.frame_time_ms| ≤ m.margin_tolerance_ms ∧
          p < -m.margin_tolerance_ms)) ∨
      (m.target_frame_time_ms - s.frame_time_ms > m.margin_tolerance_ms ∨
        (|m.target_frame_time_ms - s.frame_time_ms| ≤ m.margin_tolerance_ms ∧
          p > m.margin_tolerance_ms))) :
    m.update s cfg = .error .valueError := by
  obtain ⟨reg, htr, hpred⟩ := trainedPredict_ok m s cfg p hp
  have hlen2 : ¬ (m.window.append s cfg).buffer.length < 5 := by omega
  rw [update_after_fit m s cfg reg hlen2 htr, recommend_eq _ s cfg p hpred]
  by_cases hdown : m.target_frame_time_ms - s.frame_time_ms < -m.margin_tolerance_ms ∨
      (|m.target_frame_time_ms - s.frame_time_ms| ≤ m.margin_tolerance_ms ∧
        p < -m.margin_tolerance_ms)
  · rw [if_pos hdown, scale_down_invalid cfg hbad]
    rfl
  · rw [if_neg hdown, if_pos (hdec.resolve_left hdown), scale_up_invalid cfg hbad]
    rfl

/-- Witness for C8: the warm manager, a slow fifth tick and the invalid
`"ultra"` ambient occlusion make `update` raise `ValueError`. -/
theorem update_invalid_enum_valueError_witness :
    warmManager.update newestSample badConfig = .error .valueError :=
  update_invalid_enum_valueError warmManager newestSample badConfig predictedValue
    (Or.inl (by decide)) (by decide) (by decide) (Or.inl (Or.inl (by decide)))

/-- Witness for C2: on the warm manager's fifth tick (frame time 19 ms,
observed margin −3 past the −1 tolerance) `update` returns the
scale-down step of the input config. -/
theorem update_decision_rule_witness :
    (warmManager.update newestSample highConfig).map Prod.snd =
      scale_down highConfig :=
  (update_decision_rule warmManager newestSample highConfig predictedValue
    (by decide) (by decide) (by decide)).1 (Or.inl (by decide))

/-- A successful `tuple.index` stays inside the tuple. -/
lemma levelIndex_lt_length {l : List String} {x : String} {i : ℕ}
    (h : levelIndex l x = .ok i) : i < l.length := by
  induction l generalizing i with
  | nil => simp [levelIndex] at h
  | cons y rest ih =>
    simp only [levelIndex] at h
    by_cases hyx : y = x
    · rw [if_pos hyx] at h
      simp only [Except.ok.injEq] at h
      subst h
      simp
    · rw [if_neg hyx] at h
      cases hrest : levelIndex rest x with
      | error e => rw [hrest] at h; simp [Except.map] at h
      | ok j =>
        rw [hrest] at h
        simp only [Except.map, Except.ok.injEq] at h
        have := ih hrest
        simp only [List.length_cons]
        omega

/-- A successful `tuple.index` points back at the looked-up value. -/
lemma levelIndex_getD {l : List String} {x : String} {i : ℕ}
    (h : levelIndex l x = .ok i) : l.getD i "" = x := by
  induction l generalizing i with
  | nil => simp [levelIndex] at h
  | cons y rest ih =>
    simp only [levelIndex] at h
    by_cases hyx : y = x
    · rw [if_pos hyx] at h
      simp only [Except.ok.injEq] at h
      subst h
      simpa using hyx
    · rw [if_neg hyx] at h
      cases hrest : levelIndex rest x with
      | error e => rw [hrest] at h; simp [Except.map] at h
      | ok j =>
        rw [hrest] at h
        simp only [Except.map, Except.ok.injEq] at h
        subst h
        simpa using ih hrest

/-- Rounding to the nearest hundredth moves a value up by at most
`1/200`. -/
lemma round2_le (q : ℚ) : round2 q ≤ q + 1/200 := by
  have h := abs_sub_round (q * 100)
  rw [abs_le] at h
  have h2 : ((round (q * 100) : ℤ) : ℚ) ≤ q * 100 + 1/2 := by linarith [h.1]
  unfold round2
  linarith

/-- When the freshly fitted model cannot predict, `update` propagates
that error. -/
lemma update_predict_error (m : AdaptiveQualityManager) (s : TelemetrySample)
    (cfg : GraphicsConfig) (reg : RidgeRegressor) (e : PyErr)
    (hlen : ¬ (m.window.append s cfg).buffer.length < 5)
    (htr : ({ m with window := m.window.append s cfg } :
        AdaptiveQualityManager).train_model = .ok reg)
    (hpred : reg.predict (featuresOf s) = .error e) :
    m.update s cfg = .error e := by
  rw [update_after_fit m s cfg reg hlen htr]
  simp only [AdaptiveQualityManager.recommend, hpred, Except.bind, Bind.bind]
  rfl

/-- The ambient-occlusion component of a clamped config. -/
lemma clamp_ambient (x : GraphicsConfig) : x.clamp.ambient_occlusion =
    if x.ambient_occlusion ∈ ao_levels then x.ambient_occlusion else "medium" := rfl

/-- The shadow-distance component of a clamped config. -/
lemma clamp_shadow (x : GraphicsConfig) : x.clamp.shadow_distance =
    if x.shadow_distance ∈ shadow_levels then x.shadow_distance else "medium" := rfl

/-- C4 (amended): with a 16 ms target, 1 ms tolerance and a frame time
past 17 ms, every `update` past warm-up that returns a config either
keeps `resolution_scale` no higher than the input's, or moves
`ambient_occlusion` or `shadow_distance` one rung down, or — when the
input is already at the full floor (`off`, `short`) — returns exactly
`config.clamp()` (which can raise a sub-0.5 resolution back to the 0.5
bound). -/
theorem scale_down_pressure (m : AdaptiveQualityManager) (s : TelemetrySample)
    (cfg c' : GraphicsConfig)
    (htarget : m.target_frame_time_ms = 16)
    (htol : m.margin_tolerance_ms = 1)
    (hft : 17 < s.frame_time_ms)
    (hlen : 5 ≤ (m.window.append s cfg).buffer.length)
    (hok : (m.update s cfg).map Prod.snd = .ok c') :
    c'.resolution_scale ≤ cfg.resolution_scale ∨
    (∃ k, levelIndex ao_levels cfg.ambient_occlusion = .ok (k + 1) ∧
        levelIndex ao_levels c'.ambient_occlusion = .ok k) ∨
    (∃ k, levelIndex shadow_levels cfg.shadow_distance = .ok (k + 1) ∧
        levelIndex shadow_levels c'.shadow_distance = .ok k) ∨
    (cfg.ambient_occlusion = "off" ∧ cfg.shadow_distance = "short" ∧
      c' = cfg.clamp) := by
  have hlen2 : ¬ (m.window.append s cfg).buffer.length < 5 := by omega
  cases htr : ({ m with window := m.window.append s cfg } :
      AdaptiveQualityManager).train_model with
  | error e =>
    rw [update_fit_error m s cfg e hlen2 htr] at hok
    simp [Except.map] at hok
  | ok reg =>
  cases hpred : reg.predict (featuresOf s) with
  | error e =>
    rw [update_predict_error m s cfg reg e hlen2 htr hpred] at hok
    simp [Except.map] at hok
  | ok p =>
  rw [update_after_fit m s cfg reg hlen2 htr, map_snd_pair,
    recommend_eq _ s cfg p hpred] at hok
  have hdown : m.target_frame_time_ms - s.frame_time_ms < -m.margin_tolerance_ms := by
    rw [htarget, htol]; linarith
  rw [if_pos (Or.inl hdown)] at hok
  cases hao : levelIndex ao_levels cfg.ambient_occlusion with
  | error e => simp [scale_down, hao, Except.bind, Bind.bind] at hok
  | ok i =>
  cases hsh : levelIndex shadow_levels cfg.shadow_distance with
  | error e => simp [scale_down, hao, hsh, Except.bind, Bind.bind] at hok
  | ok j =>
  simp only [scale_down, hao, hsh, Except.bind, Bind.bind] at hok
  by_cases hrs : cfg.resolution_scale > 4/5
  · left
    rw [if_pos hrs] at hok
    simp only [Except.ok.injEq] at hok
    subst hok
    have h1 := round2_le (cfg.resolution_scale - 1/20)
    simp only [GraphicsConfig.clamp]
    calc min (max (round2 (cfg.resolution_scale - 1/20)) (1/2)) 1
        ≤ max (round2 (cfg.resolution_scale - 1/20)) (1/2) := min_le_left _ _
      _ ≤ cfg.resolution_scale := max_le (by linarith) (by linarith)
  · rw [if_neg hrs] at hok
    have hlt_ao : i < ao_levels.length := levelIndex_lt_length hao
    have hlt_sh : j < shadow_levels.length := levelIndex_lt_length hsh
    have hget_ao := levelIndex_getD hao
    have hget_sh := levelIndex_getD hsh
    have hlt4 : i < 4 := by simpa [ao_levels] using hlt_ao
    have hlt3 : j < 3 := by simpa [shadow_levels] using hlt_sh
    by_cases hi : 0 < i
    · right; left
      rw [if_pos hi] at hok
      simp only [Except.ok.injEq] at hok
      subst hok
      interval_cases i
      · refine ⟨0, rfl, ?_⟩
        rw [clamp_ambient]; dsimp only; decide
      · refine ⟨1, rfl, ?_⟩
        rw [clamp_ambient]; dsimp only; decide
      · refine ⟨2, rfl, ?_⟩
        rw [clamp_ambient]; dsimp only; decide
    · rw [if_neg hi] at hok
      by_cases hj : 0 < j
      · right; right; left
        rw [if_pos hj] at hok
        simp only [Except.ok.injEq] at hok
        subst hok
        interval_cases j
        · refine ⟨0, rfl, ?_⟩
          rw [clamp_shadow]; dsimp only; decide
        · refine ⟨1, rfl, ?_⟩
          rw [clamp_shadow]; dsimp only; decide
      · right; right; right
        rw [if_neg hj] at hok
        simp only [Except.ok.injEq] at hok
        have hi0 : i = 0 := by omega
        have hj0 : j = 0 := by omega
        subst hi0; subst hj0
        refine ⟨?_, ?_, hok.symm⟩
        · rw [← hget_ao]; rfl
        · rw [← hget_sh]; rfl

/-- C4 counterexample: six pressure ticks (frame times 18–21 ms against
the 16 ms target) on the below-floor config `(0.4, "off", "short")`.
Every call — including the fifth and sixth, which are past warm-up —
returns `(0.5, "off", "short")`: the resolution scale rises from `2/5`
to `1/2`, and neither ladder field has a lower rung (both sit at index
0), so the claim's disjunction fails on those calls. -/
theorem scale_down_pressure_counterexample :
    (runUpdates freshManager pressureRun).map (fun r => r.2) =
      .ok [⟨1/2, "off", "short"⟩, ⟨1/2, "off", "short"⟩, ⟨1/2, "off", "short"⟩,
           ⟨1/2, "off", "short"⟩, ⟨1/2, "off", "short"⟩, ⟨1/2, "off", "short"⟩] ∧
    floorConfig.resolution_scale < 1/2 ∧
    levelIndex ao_levels floorConfig.ambient_occlusion = .ok 0 ∧
    levelIndex shadow_levels floorConfig.shadow_distance = .ok 0 := by
  exact ⟨by decide, by decide, by decide, by decide⟩

/-- Witness for C4: the warm manager's fifth pressure tick on the
`(0.9, "high", "long")` config returns `(0.85, "high", "long")`, whose
resolution scale is below the input's. -/
theorem scale_down_pressure_witness :
    (⟨17/20, "high", "long"⟩ : GraphicsConfig).resolution_scale ≤
      highConfig.resolution_scale ∨
    (∃ k, levelIndex ao_levels highConfig.ambient_occlusion = .ok (k + 1) ∧
        levelIndex ao_levels
          (⟨17/20, "high", "long"⟩ : GraphicsConfig).ambient_occlusion = .ok k) ∨
    (∃ k, levelIndex shadow_levels highConfig.shadow_distance = .ok (k + 1) ∧
        levelIndex shadow_levels
          (⟨17/20, "high", "long"⟩ : GraphicsConfig).shadow_distance = .ok k) ∨
    (highConfig.ambient_occlusion = "off" ∧ highConfig.shadow_distance = "short" ∧
      (⟨17/20, "high", "long"⟩ : GraphicsConfig) = highConfig.clamp) :=
  scale_down_pressure warmManager newestSample highConfig ⟨17/20, "high", "long"⟩
    (by decide) (by decide) (by decide) (by decide) (by decide)
